import Mathlib

/-!
Verification of `other_emails_v.3.py`: a BigQuery provisioning workflow that
creates three destination tables (`customer_graph`, `customer_graph_legacy`,
`used_guids`), runs one analytical query to find user emails lacking sales
activity, and inserts the resulting GUID rows into the three tables.

The embedding models:
* the fixed SQL query (two anti-join branches unioned, then inner-joined
  against a GUID-assignment table) as a function over abstract source tables,
  with SQL three-valued `NULL` comparison modelled by `sqlEq` on `Option String`;
* the row-building comprehensions (`rows_to_insert`, `used_guids_rows`);
* the table schemas and the schema-selection expression;
* the whole workflow as a function from an environment (outcomes of the
  warehouse API calls) and a destination-table state to a result holding the
  new state, an event trace, and the uncaught error, if any.
-/

namespace OtherEmails

/-- A calendar date as Python's `datetime.date` holds it. -/
structure PyDate where
  year : Nat
  month : Nat
  day : Nat
deriving DecidableEq, Repr

/-- Left-pad the decimal rendering of `n` with zeros to width `w`,
as Python's `%0*d` formatting does for non-negative values. -/
def padZero (w : Nat) (n : Nat) : String :=
  let s := toString n
  String.mk (List.replicate (w - s.length) '0') ++ s

/-- Python's `date.isoformat()`: `YYYY-MM-DD`. -/
def PyDate.isoformat (d : PyDate) : String :=
  padZero 4 d.year ++ "-" ++ padZero 2 d.month ++ "-" ++ padZero 2 d.day

/-- SQL equality between two nullable string columns: `NULL` compares
unknown (not TRUE) with everything, including `NULL`. -/
def sqlEq : Option String → Option String → Bool
  | some a, some b => a == b
  | _, _ => false

/-- A row of the GUID-assignment table
`cdp-dev-342319.Ashish_Tables.all_users_with_guid`. -/
structure GuidRow where
  UserEmail : Option String
  GUID : String
deriving DecidableEq, Repr

/-- The four read-only source tables of the query, each reduced to the
columns the query touches. -/
structure SourceDB where
  /-- `Email` column of `EDWOlap.ClarkitbizDimUser`. -/
  dimUser : List (Option String)
  /-- `UserEmail` column of `Sales_Data.Invoices_And_Orders_Sales_Data`. -/
  sales : List (Option String)
  /-- `email` column of `EDWNonOlap.GetReportUserSubscriptions`. -/
  subs : List (Option String)
  /-- the GUID-assignment table `all_users_with_guid`. -/
  guidTable : List GuidRow

/-- First branch of the `user_emails` CTE: `SELECT DISTINCT du.Email FROM
ClarkitbizDimUser du LEFT JOIN sales iosd ON du.Email = iosd.UserEmail
WHERE iosd.UserEmail IS NULL`.  A dimensional row survives the left join
plus null filter exactly when no sales row matches its email. -/
def branch1 (db : SourceDB) : List (Option String) :=
  (db.dimUser.filter (fun e => !(db.sales.any (fun s => sqlEq e s)))).dedup

/-- Second branch: `SELECT DISTINCT us.email FROM GetReportUserSubscriptions us
LEFT JOIN ClarkitbizDimUser du ON us.email = du.Email LEFT JOIN sales iosd
ON us.Email = iosd.UserEmail WHERE iosd.UserEmail IS NULL AND du.Email IS NULL`:
subscription emails matching neither the dimensional table nor the sales table. -/
def branch2 (db : SourceDB) : List (Option String) :=
  (db.subs.filter (fun e =>
    !(db.sales.any (fun s => sqlEq e s)) && !(db.dimUser.any (fun u => sqlEq e u)))).dedup

/-- The `user_emails` CTE: `UNION ALL` of the two branches. -/
def user_emails (db : SourceDB) : List (Option String) :=
  branch1 db ++ branch2 db

/-- One row of the final `SELECT`: the assigned GUID, the candidate email,
the two always-`NULL` placeholder ids, and `CURRENT_DATE()`. -/
structure QueryRow where
  GUID : String
  UserEmail : Option String
  BillingID : Option String
  ShippingID : Option String
  Date : PyDate
deriving DecidableEq, Repr

/-- Build the final-`SELECT` row for a candidate email joined to one
GUID-assignment row. -/
def mkQueryRow (d : PyDate) (ue : Option String) (g : GuidRow) : QueryRow :=
  { GUID := g.GUID, UserEmail := ue, BillingID := none, ShippingID := none, Date := d }

/-- The inner join of one candidate email against the GUID-assignment table:
one output row per assignment row whose `UserEmail` matches. -/
def rowsForEmail (db : SourceDB) (d : PyDate) (ue : Option String) : List QueryRow :=
  (db.guidTable.filter (fun g => sqlEq ue g.UserEmail)).map (mkQueryRow d ue)

/-- The full query: `FROM user_emails ue JOIN all_users_with_guid ug
ON ue.UserEmail = ug.UserEmail`, stamping each row with the processing
date `d` (`CURRENT_DATE()`). -/
def runQuery (db : SourceDB) (d : PyDate) : List QueryRow :=
  (user_emails db).flatMap (rowsForEmail db d)

/-! ## Row building for the inserts -/

/-- A JSON row handed to `insert_rows_json` for the two customer-graph
tables: every field a primitive, the date rendered by `isoformat()`. -/
structure InsertRow where
  GUID : String
  UserEmail : Option String
  BillingID : Option String
  ShippingID : Option String
  Date : String
deriving DecidableEq, Repr

/-- A JSON row for the `used_guids` audit table. -/
structure UsedRow where
  GUID : String
  Date : String
deriving DecidableEq, Repr

/-- The dictionary built for one query-result row in the `rows_to_insert`
comprehension. -/
def toInsertRow (email : QueryRow) : InsertRow :=
  { GUID := email.GUID, UserEmail := email.UserEmail, BillingID := email.BillingID,
    ShippingID := email.ShippingID, Date := email.Date.isoformat }

/-- `rows_to_insert`: the full result set serialized for insertion. -/
def rows_to_insert (new_emails : List QueryRow) : List InsertRow :=
  new_emails.map toInsertRow

/-- `used_guids_rows`: the GUID-and-date projection of the result set. -/
def used_guids_rows (new_emails : List QueryRow) : List UsedRow :=
  new_emails.map (fun email => { GUID := email.GUID, Date := email.Date.isoformat })

/-! ## Schemas -/

/-- A BigQuery schema field mode. -/
inductive FieldMode where
  | required
  | nullable
deriving DecidableEq, Repr

/-- One `bigquery.SchemaField(name, field_type, mode)`. -/
structure SchemaField where
  name : String
  field_type : String
  mode : FieldMode
deriving DecidableEq, Repr

/-- Schema of `customer_graph` and `customer_graph_legacy`. -/
def common_schema : List SchemaField :=
  [ { name := "GUID", field_type := "STRING", mode := .required },
    { name := "UserEmail", field_type := "STRING", mode := .nullable },
    { name := "BillingID", field_type := "STRING", mode := .nullable },
    { name := "ShippingID", field_type := "STRING", mode := .nullable },
    { name := "Date", field_type := "DATE", mode := .required } ]

/-- Schema of the `used_guids` audit table. -/
def used_guids_schema : List SchemaField :=
  [ { name := "GUID", field_type := "STRING", mode := .required },
    { name := "Date", field_type := "DATE", mode := .required } ]

/-- The three destination table names, in creation order. -/
def tables : List String :=
  ["customer_graph", "customer_graph_legacy", "used_guids"]

/-- `schema = common_schema if table_id != 'used_guids' else used_guids_schema`. -/
def schemaFor (table_id : String) : List SchemaField :=
  if table_id ≠ "used_guids" then common_schema else used_guids_schema

/-- Mode of the field named `n` in schema `s`, `none` when absent. -/
def fieldMode (s : List SchemaField) (n : String) : Option FieldMode :=
  (s.find? (fun f => f.name == n)).map (fun f => f.mode)

/-! ## The workflow

`initialize_tables` is a straight-line script over warehouse API calls.  We
model the outcomes the warehouse chooses (creation failures, the query
result, per-table insert error lists) as an environment, the contents of the
three destination tables as a state, and the observable behaviour of one run
as the new state plus a trace of events plus the uncaught exception, if any.
-/

/-- Warehouse-chosen outcomes of the API calls made by one run. -/
structure Env where
  /-- `client.create_table`: `some msg` when the call raises `GoogleAPIError`
  with that message (e.g. table already exists), `none` on success. -/
  createFails : String → Option String
  /-- `client.query(...)` followed by `query_job.result()`: either the list
  of result rows or the raised error. -/
  queryOutcome : Except String (List QueryRow)
  /-- `client.insert_rows_json` on the given destination table: the returned
  list of row-level errors (empty on full success). -/
  insertErrors : String → List String

/-- Observable steps of one run, in program order. -/
inductive Event where
  | created (t : String)
  | createFailed (t : String) (msg : String)
  | queryStarted
  | insertAttempt (t : String) (rows : List InsertRow)
  | insertUsedAttempt (rows : List UsedRow)
  | insertOk (t : String)
  | insertErrorsLogged (t : String) (errs : List String)
deriving DecidableEq, Repr

/-- Contents of the three destination tables. -/
structure WarehouseState where
  customer_graph : List InsertRow
  customer_graph_legacy : List InsertRow
  used_guids : List UsedRow
deriving DecidableEq, Repr

/-- Outcome of one run: final table contents, the event trace, and the
uncaught exception (`none` when the run finishes). -/
structure RunResult where
  state : WarehouseState
  events : List Event
  err : Option String
deriving DecidableEq, Repr

/-- The table-creation loop: each failure is caught inside the loop body and
logged, so every table is attempted and nothing propagates. -/
def createEvents (env : Env) : List Event :=
  tables.map (fun table_id =>
    match env.createFails table_id with
    | some msg => .createFailed table_id msg
    | none => .created table_id)

/-- One `insert_rows_json` call on a customer-graph table `t`: rows are
appended when the warehouse reports no errors; a non-empty error list is
logged and the run continues either way. -/
def insertGraphStep (env : Env) (t : String) (rows : List InsertRow)
    (s : WarehouseState) : WarehouseState × List Event :=
  let errs := env.insertErrors t
  let s' :=
    if errs = [] then
      if t = "customer_graph" then
        { s with customer_graph := s.customer_graph ++ rows }
      else
        { s with customer_graph_legacy := s.customer_graph_legacy ++ rows }
    else s
  (s', [Event.insertAttempt t rows] ++
    (if errs = [] then [Event.insertOk t] else [Event.insertErrorsLogged t errs]))

/-- The whole `initialize_tables()` run: create the three tables (failures
caught and logged), submit the query (an error here propagates uncaught,
before any insert), serialize the result rows, insert them into
`customer_graph` then `customer_graph_legacy`, then insert the GUID/date
projection into `used_guids`; insert errors are only logged. -/
def initialize_tables (env : Env) (s : WarehouseState) : RunResult :=
  let evs0 := createEvents env ++ [Event.queryStarted]
  match env.queryOutcome with
  | .error e => { state := s, events := evs0, err := some e }
  | .ok new_emails =>
    let rows := rows_to_insert new_emails
    let (s1, evs1) := insertGraphStep env "customer_graph" rows s
    let (s2, evs2) := insertGraphStep env "customer_graph_legacy" rows s1
    let urows := used_guids_rows new_emails
    let uerrs := env.insertErrors "used_guids"
    let s3 :=
      if uerrs = [] then { s2 with used_guids := s2.used_guids ++ urows } else s2
    let uevs := [Event.insertUsedAttempt urows] ++
      (if uerrs = [] then [Event.insertOk "used_guids"]
       else [Event.insertErrorsLogged "used_guids" uerrs])
    { state := s3, events := evs0 ++ evs1 ++ evs2 ++ uevs, err := none }

/-- Events that submit rows to a destination table. -/
def isInsertEvent : Event → Bool
  | .insertAttempt _ _ => true
  | .insertUsedAttempt _ => true
  | _ => false

/-! ## Concrete sample inputs -/

/-- All three destination tables empty, the state before a first run. -/
def emptyWarehouse : WarehouseState :=
  { customer_graph := [], customer_graph_legacy := [], used_guids := [] }

/-- A sample processing date. -/
def sampleDate : PyDate := { year := 2026, month := 10, day := 12 }

/-- A sample query-result row. -/
def sampleRow : QueryRow :=
  { GUID := "G-1", UserEmail := some "u@y.com", BillingID := none,
    ShippingID := none, Date := sampleDate }

/-- End-to-end scenario sources: the dimensional table holds `a@x.com`,
no sales row matches it, and the GUID-assignment table maps it to `G-123`. -/
def scenarioDB : SourceDB :=
  { dimUser := [some "a@x.com"], sales := [], subs := [],
    guidTable := [{ UserEmail := some "a@x.com", GUID := "G-123" }] }

/-- End-to-end scenario environment: table creation succeeds, the query
returns exactly what the SQL semantics computes on `scenarioDB`, and every
insert succeeds. -/
def scenarioEnv (d : PyDate) : Env :=
  { createFails := fun _ => none,
    queryOutcome := .ok (runQuery scenarioDB d),
    insertErrors := fun _ => [] }

/-- Sources for the C1 witness. -/
def w1db : SourceDB :=
  { dimUser := [some "a"], sales := [], subs := [],
    guidTable := [{ UserEmail := some "a", GUID := "G-7" }] }

/-- Sources for the C2 witness: subscription email `b` has no
GUID-assignment row. -/
def w2db : SourceDB :=
  { dimUser := [], sales := [], subs := [some "b"],
    guidTable := [{ UserEmail := some "a", GUID := "G-1" }] }

/-- Sources for the C3 witness: email `c` occurs in both the dimensional
table and the sales table. -/
def w3db : SourceDB :=
  { dimUser := [some "c"], sales := [some "c"], subs := [],
    guidTable := [{ UserEmail := some "c", GUID := "G-9" }] }

/-- Environment for the C5 witness: the insert into `customer_graph`
reports an error, the other inserts succeed. -/
def w5env : Env :=
  { createFails := fun _ => none,
    queryOutcome := .ok [sampleRow],
    insertErrors := fun t => if t = "customer_graph" then ["boom"] else [] }

/-- Environment for the C6 witness: creating `customer_graph` fails with
an already-exists error. -/
def w6env : Env :=
  { createFails := fun t => if t = "customer_graph" then some "exists" else none,
    queryOutcome := .ok [],
    insertErrors := fun _ => [] }

/-- Environment for the C7 witness: the query raises. -/
def w7env : Env :=
  { createFails := fun _ => none,
    queryOutcome := .error "bad query",
    insertErrors := fun _ => [] }

/-- Environment for the C8 witness: a fully successful run. -/
def w8env : Env :=
  { createFails := fun _ => none,
    queryOutcome := .ok [sampleRow],
    insertErrors := fun _ => [] }

/-- Environment for the C10 witness. -/
def w10env : Env :=
  { createFails := fun _ => none,
    queryOutcome := .ok [sampleRow],
    insertErrors := fun _ => [] }

/-! ## Helper lemmas -/

/-- Counting in a `flatMap` when only the blocks generated by `a` can
contain `b`: each of the `l.count a` occurrences contributes
`(f a).count b`. -/
lemma count_flatMap_eq {α β : Type} [BEq α] [LawfulBEq α] [BEq β] [LawfulBEq β]
    (l : List α) (f : α → List β) (a : α) (b : β)
    (h : ∀ x ∈ l, x ≠ a → (f x).count b = 0) :
    (l.flatMap f).count b = l.count a * (f a).count b := by
  induction l with
  | nil => simp
  | cons x xs ih =>
    have hxs : ∀ y ∈ xs, y ≠ a → (f y).count b = 0 :=
      fun y hy => h y (List.mem_cons_of_mem _ hy)
    by_cases hx : x = a
    · subst hx
      rw [List.flatMap_cons, List.count_append, ih hxs, List.count_cons_self]
      ring
    · rw [List.flatMap_cons, List.count_append, ih hxs,
        List.count_cons_of_ne (fun hc => hx hc.symm),
        h x (List.mem_cons_self x xs) hx]
      omega

/-- In a duplicate-free list, a member is counted exactly once. -/
lemma count_eq_one_of_nodup_mem {α : Type} [BEq α] [LawfulBEq α]
    {l : List α} {a : α} (hn : l.Nodup) (ha : a ∈ l) : l.count a = 1 := by
  induction l with
  | nil => cases ha
  | cons x xs ih =>
    rcases List.mem_cons.mp ha with rfl | hm
    · rw [List.count_cons_self,
        List.count_eq_zero.mpr (List.nodup_cons.mp hn).1]
    · have hne : a ≠ x := fun hax => (List.nodup_cons.mp hn).1 (hax ▸ hm)
      rw [List.count_cons_of_ne hne, ih (List.nodup_cons.mp hn).2 hm]

/-- `count` after `dedup`, stated for an arbitrary lawful `BEq` instance. -/
lemma count_dedup_lawful {α : Type} [BEq α] [LawfulBEq α] [DecidableEq α]
    (l : List α) (a : α) : l.dedup.count a = if a ∈ l then 1 else 0 := by
  by_cases h : a ∈ l
  · rw [if_pos h]
    exact count_eq_one_of_nodup_mem l.nodup_dedup (List.mem_dedup.mpr h)
  · rw [if_neg h]
    exact List.count_eq_zero.mpr (fun hm => h (List.mem_dedup.mp hm))

/-- Every row the join emits for candidate `ue` carries `ue` in its
`UserEmail` field. -/
lemma userEmail_of_mem_rowsForEmail {db : SourceDB} {d : PyDate}
    {ue : Option String} {r : QueryRow} (h : r ∈ rowsForEmail db d ue) :
    r.UserEmail = ue := by
  rcases List.mem_map.mp h with ⟨g, _, rfl⟩
  rfl

/-- `sqlEq` holds between a non-null value and itself. -/
lemma sqlEq_some_self (e : String) : sqlEq (some e) (some e) = true := by
  simp [sqlEq]

/-- Every query-result row's `UserEmail` is a candidate of `user_emails`. -/
lemma mem_user_emails_of_mem_runQuery {db : SourceDB} {d : PyDate}
    {r : QueryRow} (h : r ∈ runQuery db d) : r.UserEmail ∈ user_emails db := by
  rcases List.mem_flatMap.mp h with ⟨ue, hue, hr⟩
  rwa [userEmail_of_mem_rowsForEmail hr]

/-- Every query-result row arises from a GUID-assignment row matching its
`UserEmail`. -/
lemma exists_guidRow_of_mem_runQuery {db : SourceDB} {d : PyDate}
    {r : QueryRow} (h : r ∈ runQuery db d) :
    ∃ g ∈ db.guidTable, sqlEq r.UserEmail g.UserEmail = true := by
  rcases List.mem_flatMap.mp h with ⟨ue, _, hr⟩
  have hue := userEmail_of_mem_rowsForEmail hr
  rcases List.mem_map.mp hr with ⟨g, hg, _⟩
  exact ⟨g, (List.mem_filter.mp hg).1, hue ▸ (List.mem_filter.mp hg).2⟩

/-- An email with a sales match is in neither branch of `user_emails`. -/
lemma not_mem_user_emails_of_sales {db : SourceDB} {e : String}
    (h : some e ∈ db.sales) : some e ∉ user_emails db := by
  intro hmem
  have hany : db.sales.any (fun s => sqlEq (some e) s) = true :=
    List.any_eq_true.mpr ⟨some e, h, sqlEq_some_self e⟩
  rcases List.mem_append.mp hmem with h1 | h2
  · have := (List.mem_filter.mp (List.mem_dedup.mp h1)).2
    simp [hany] at this
  · have := (List.mem_filter.mp (List.mem_dedup.mp h2)).2
    simp [hany] at this

/-- Events produced by the creation loop never submit rows. -/
lemma isInsertEvent_eq_false_of_mem_createEvents {env : Env} {ev : Event}
    (h : ev ∈ createEvents env) : isInsertEvent ev = false := by
  rcases List.mem_map.mp h with ⟨t, _, rfl⟩
  cases env.createFails t <;> rfl

/-- No insert event among the creation events. -/
lemma createEvents_filter_insert (env : Env) :
    (createEvents env).filter isInsertEvent = [] :=
  List.filter_eq_nil_iff.mpr (fun ev hev => by
    simp [isInsertEvent_eq_false_of_mem_createEvents hev])

/-- The full event trace of a run whose query succeeds. -/
lemma run_events_ok (env : Env) (s : WarehouseState) (qs : List QueryRow)
    (hq : env.queryOutcome = .ok qs) :
    (initialize_tables env s).events =
      createEvents env ++ [Event.queryStarted] ++
      ([Event.insertAttempt "customer_graph" (rows_to_insert qs)] ++
        (if env.insertErrors "customer_graph" = [] then
          [Event.insertOk "customer_graph"]
         else
          [Event.insertErrorsLogged "customer_graph"
            (env.insertErrors "customer_graph")])) ++
      ([Event.insertAttempt "customer_graph_legacy" (rows_to_insert qs)] ++
        (if env.insertErrors "customer_graph_legacy" = [] then
          [Event.insertOk "customer_graph_legacy"]
         else
          [Event.insertErrorsLogged "customer_graph_legacy"
            (env.insertErrors "customer_graph_legacy")])) ++
      ([Event.insertUsedAttempt (used_guids_rows qs)] ++
        (if env.insertErrors "used_guids" = [] then
          [Event.insertOk "used_guids"]
         else
          [Event.insertErrorsLogged "used_guids"
            (env.insertErrors "used_guids")])) := by
  unfold initialize_tables insertGraphStep
  rw [hq]

/-- The final table contents of a run whose query succeeds: each table is
appended to exactly when its own insert call reports no errors. -/
lemma run_state_ok (env : Env) (s : WarehouseState) (qs : List QueryRow)
    (hq : env.queryOutcome = .ok qs) :
    (initialize_tables env s).state =
      { customer_graph := s.customer_graph ++
          (if env.insertErrors "customer_graph" = [] then rows_to_insert qs
           else []),
        customer_graph_legacy := s.customer_graph_legacy ++
          (if env.insertErrors "customer_graph_legacy" = [] then
            rows_to_insert qs
           else []),
        used_guids := s.used_guids ++
          (if env.insertErrors "used_guids" = [] then used_guids_rows qs
           else []) } := by
  unfold initialize_tables insertGraphStep
  rw [hq]
  by_cases h1 : env.insertErrors "customer_graph" = [] <;>
    by_cases h2 : env.insertErrors "customer_graph_legacy" = [] <;>
      by_cases h3 : env.insertErrors "used_guids" = [] <;>
        simp [h1, h2, h3]

/-- A run never raises from the creation or insert phases: its uncaught
error is exactly the query error, if any. -/
lemma run_err (env : Env) (s : WarehouseState) :
    (initialize_tables env s).err =
      (match env.queryOutcome with
       | .ok _ => none
       | .error e => some e) := by
  unfold initialize_tables insertGraphStep
  cases env.queryOutcome <;> rfl

/-- The insert events of a run whose query succeeds, in program order:
one attempt per destination table, the same serialized rows for both
customer-graph tables, the GUID/date projection for `used_guids`. -/
lemma run_insert_events (env : Env) (s : WarehouseState) (qs : List QueryRow)
    (hq : env.queryOutcome = .ok qs) :
    ((initialize_tables env s).events.filter isInsertEvent) =
      [Event.insertAttempt "customer_graph" (rows_to_insert qs),
       Event.insertAttempt "customer_graph_legacy" (rows_to_insert qs),
       Event.insertUsedAttempt (used_guids_rows qs)] := by
  rw [run_events_ok env s qs hq]
  by_cases h1 : env.insertErrors "customer_graph" = [] <;>
    by_cases h2 : env.insertErrors "customer_graph_legacy" = [] <;>
      by_cases h3 : env.insertErrors "used_guids" = [] <;>
        simp [h1, h2, h3, List.filter_append, createEvents_filter_insert,
          isInsertEvent]

/-- Whatever the query outcome, the creation-phase events appear in the
run's trace. -/
lemma mem_events_of_mem_createEvents (env : Env) (s : WarehouseState)
    {ev : Event} (h : ev ∈ createEvents env) :
    ev ∈ (initialize_tables env s).events := by
  rcases hqc : env.queryOutcome with e | qs
  · unfold initialize_tables insertGraphStep
    rw [hqc]
    exact List.mem_append.mpr (Or.inl h)
  · rw [run_events_ok env s qs hqc]
    simp [h]

/-- Whatever the query outcome, the run reaches the query phase. -/
lemma queryStarted_mem_events (env : Env) (s : WarehouseState) :
    Event.queryStarted ∈ (initialize_tables env s).events := by
  rcases hqc : env.queryOutcome with e | qs
  · unfold initialize_tables insertGraphStep
    rw [hqc]
    simp
  · rw [run_events_ok env s qs hqc]
    simp

/-! ## Claims about the query -/

/-- C1: if a user email occurs in the dimensional user table, matches no
row of the sales fact table, and has exactly one row in the GUID-assignment
table, then the result row carrying that user's GUID occurs exactly once in
the query result. -/
theorem guid_appears_exactly_once (db : SourceDB) (d : PyDate) (e : String)
    (g : GuidRow)
    (h1 : some e ∈ db.dimUser)
    (h2 : ∀ s ∈ db.sales, sqlEq (some e) s = false)
    (h3 : db.guidTable.filter (fun gr => sqlEq (some e) gr.UserEmail) = [g]) :
    (runQuery db d).count
      { GUID := g.GUID, UserEmail := some e, BillingID := none,
        ShippingID := none, Date := d } = 1 := by
  set target : QueryRow :=
    { GUID := g.GUID, UserEmail := some e, BillingID := none,
      ShippingID := none, Date := d } with htarget
  have hzero : ∀ ue ∈ user_emails db, ue ≠ some e →
      (rowsForEmail db d ue).count target = 0 := by
    intro ue _ hne
    refine List.count_eq_zero.mpr (fun hmem => hne ?_)
    have := userEmail_of_mem_rowsForEmail hmem
    rw [htarget] at this
    exact this.symm
  rw [runQuery, count_flatMap_eq (user_emails db) (rowsForEmail db d)
    (some e) target hzero]
  have hb1 : (branch1 db).count (some e) = 1 := by
    rw [branch1, count_dedup_lawful, if_pos]
    exact List.mem_filter.mpr ⟨h1, by simp [List.any_eq_true]; exact h2⟩
  have hb2 : (branch2 db).count (some e) = 0 := by
    rw [branch2, count_dedup_lawful, if_neg]
    intro hmem
    have hpred := (List.mem_filter.mp hmem).2
    have hany : db.dimUser.any (fun u => sqlEq (some e) u) = true :=
      List.any_eq_true.mpr ⟨some e, h1, sqlEq_some_self e⟩
    simp [hany] at hpred
  have hcnt : (user_emails db).count (some e) = 1 := by
    rw [user_emails, List.count_append, hb1, hb2]
  have hrows : rowsForEmail db d (some e) = [target] := by
    rw [rowsForEmail, h3, List.map_cons, List.map_nil]
    rfl
  rw [hcnt, hrows, one_mul, List.count_singleton_self]

/-- C2: a candidate email with no row in the GUID-assignment table is
absent from the query result and from every row prepared for insertion. -/
theorem candidate_without_guid_dropped (db : SourceDB) (d : PyDate)
    (ue : Option String)
    (hcand : ue ∈ user_emails db)
    (hg : ∀ g ∈ db.guidTable, sqlEq ue g.UserEmail = false) :
    (∀ r ∈ runQuery db d, r.UserEmail ≠ ue) ∧
    (∀ r ∈ rows_to_insert (runQuery db d), r.UserEmail ≠ ue) := by
  have hq : ∀ r ∈ runQuery db d, r.UserEmail ≠ ue := by
    intro r hr heq
    rcases exists_guidRow_of_mem_runQuery hr with ⟨g, hgmem, hsql⟩
    rw [heq] at hsql
    rw [hg g hgmem] at hsql
    exact Bool.false_ne_true hsql
  refine ⟨hq, ?_⟩
  intro r hr
  rcases List.mem_map.mp hr with ⟨q, hq', rfl⟩
  exact hq q hq'

/-- C3: an email present in both the dimensional user table and the sales
fact table never appears in the query result. -/
theorem email_with_sales_excluded (db : SourceDB) (d : PyDate) (e : String)
    (h1 : some e ∈ db.dimUser)
    (h2 : some e ∈ db.sales) :
    ∀ r ∈ runQuery db d, r.UserEmail ≠ some e := by
  intro r hr heq
  exact not_mem_user_emails_of_sales h2
    (heq ▸ mem_user_emails_of_mem_runQuery hr)

/-! ## Schema claim -/

/-- C9: GUID and Date are REQUIRED in all three destination schemas;
UserEmail, BillingID and ShippingID are NULLABLE in the schema used for
`customer_graph` and `customer_graph_legacy` and absent from the
`used_guids` schema, and the creation loop assigns exactly these schemas
to the three tables. -/
theorem schema_requiredness :
    fieldMode common_schema "GUID" = some FieldMode.required ∧
    fieldMode common_schema "Date" = some FieldMode.required ∧
    fieldMode common_schema "UserEmail" = some FieldMode.nullable ∧
    fieldMode common_schema "BillingID" = some FieldMode.nullable ∧
    fieldMode common_schema "ShippingID" = some FieldMode.nullable ∧
    fieldMode used_guids_schema "GUID" = some FieldMode.required ∧
    fieldMode used_guids_schema "Date" = some FieldMode.required ∧
    fieldMode used_guids_schema "UserEmail" = none ∧
    fieldMode used_guids_schema "BillingID" = none ∧
    fieldMode used_guids_schema "ShippingID" = none ∧
    schemaFor "customer_graph" = common_schema ∧
    schemaFor "customer_graph_legacy" = common_schema ∧
    schemaFor "used_guids" = used_guids_schema := by
  refine ⟨rfl, rfl, rfl, rfl, rfl, rfl, rfl, rfl, rfl, rfl, ?_, ?_, ?_⟩ <;>
    simp [schemaFor]

/-! ## Claims about the workflow -/

/-- C4: end to end, with `a@x.com` in the dimensional table, no matching
sales row, and the GUID-assignment row `a@x.com ↦ G-123`, one run starting
from empty tables finishes without an uncaught error and leaves the row
`(G-123, a@x.com, null, null, <date>)` in both customer-graph tables and
`(G-123, <date>)` in `used_guids`, the date serialized as ISO-8601. -/
theorem end_to_end_scenario (d : PyDate) :
    (initialize_tables (scenarioEnv d) emptyWarehouse).state =
      { customer_graph :=
          [{ GUID := "G-123", UserEmail := some "a@x.com", BillingID := none,
             ShippingID := none, Date := d.isoformat }],
        customer_graph_legacy :=
          [{ GUID := "G-123", UserEmail := some "a@x.com", BillingID := none,
             ShippingID := none, Date := d.isoformat }],
        used_guids := [{ GUID := "G-123", Date := d.isoformat }] } ∧
    (initialize_tables (scenarioEnv d) emptyWarehouse).err = none := by
  have hquery : runQuery scenarioDB d =
      [{ GUID := "G-123", UserEmail := some "a@x.com", BillingID := none,
         ShippingID := none, Date := d }] := rfl
  constructor
  · rw [run_state_ok (scenarioEnv d) emptyWarehouse (runQuery scenarioDB d) rfl,
      hquery]
    rfl
  · rw [run_err]
    rfl

/-- C5: when the query succeeds and the insert into `customer_graph`
reports errors, the run still attempts the inserts into
`customer_graph_legacy` and `used_guids`, each destination table is
attempted exactly once (no retry), the error list is logged for
`customer_graph`, and the later tables still receive their rows whenever
their own insert reports no errors (nothing is rolled back). -/
theorem insert_error_does_not_block_later_inserts (env : Env)
    (s : WarehouseState) (qs : List QueryRow)
    (hq : env.queryOutcome = .ok qs)
    (herr : env.insertErrors "customer_graph" ≠ []) :
    Event.insertAttempt "customer_graph_legacy" (rows_to_insert qs) ∈
      (initialize_tables env s).events ∧
    Event.insertUsedAttempt (used_guids_rows qs) ∈
      (initialize_tables env s).events ∧
    Event.insertErrorsLogged "customer_graph" (env.insertErrors "customer_graph") ∈
      (initialize_tables env s).events ∧
    (initialize_tables env s).events.count
      (Event.insertAttempt "customer_graph" (rows_to_insert qs)) = 1 ∧
    (initialize_tables env s).events.count
      (Event.insertAttempt "customer_graph_legacy" (rows_to_insert qs)) = 1 ∧
    (initialize_tables env s).events.count
      (Event.insertUsedAttempt (used_guids_rows qs)) = 1 ∧
    (initialize_tables env s).state.customer_graph = s.customer_graph ∧
    (initialize_tables env s).state.customer_graph_legacy =
      s.customer_graph_legacy ++
        (if env.insertErrors "customer_graph_legacy" = [] then
          rows_to_insert qs else []) ∧
    (initialize_tables env s).state.used_guids =
      s.used_guids ++
        (if env.insertErrors "used_guids" = [] then used_guids_rows qs
         else []) := by
  have hfilter := run_insert_events env s qs hq
  have hmem : ∀ ev : Event, isInsertEvent ev = true →
      ev ∈ ((initialize_tables env s).events.filter isInsertEvent) →
      ev ∈ (initialize_tables env s).events :=
    fun ev _ hmem => (List.mem_filter.mp hmem).1
  have hcount : ∀ ev : Event, isInsertEvent ev = true →
      (initialize_tables env s).events.count ev =
        ((initialize_tables env s).events.filter isInsertEvent).count ev :=
    fun ev hev => (List.count_filter hev).symm
  have hstate := run_state_ok env s qs hq
  refine ⟨?_, ?_, ?_, ?_, ?_, ?_, ?_, ?_, ?_⟩
  · exact hmem _ rfl (by rw [hfilter]; simp)
  · exact hmem _ rfl (by rw [hfilter]; simp)
  · rw [run_events_ok env s qs hq, if_neg herr]
    simp
  · rw [hcount (Event.insertAttempt "customer_graph" (rows_to_insert qs)) rfl,
      hfilter]
    simp [List.count_cons, beq_iff_eq]
  · rw [hcount (Event.insertAttempt "customer_graph_legacy" (rows_to_insert qs))
      rfl, hfilter]
    simp [List.count_cons, beq_iff_eq]
  · rw [hcount (Event.insertUsedAttempt (used_guids_rows qs)) rfl, hfilter]
    simp [List.count_cons, beq_iff_eq]
  · rw [hstate]
    simp [if_neg herr]
  · rw [hstate]
  · rw [hstate]

/-- C6: a failing table-creation call is caught and logged, every table
still gets its creation attempt, the query phase is still reached, and the
run's uncaught error can only come from the query, never from creation. -/
theorem creation_failure_nonfatal (env : Env) (s : WarehouseState)
    (t msg : String) (ht : t ∈ tables)
    (hf : env.createFails t = some msg) :
    Event.createFailed t msg ∈ (initialize_tables env s).events ∧
    (∀ u ∈ tables, Event.created u ∈ (initialize_tables env s).events ∨
      ∃ m, Event.createFailed u m ∈ (initialize_tables env s).events) ∧
    Event.queryStarted ∈ (initialize_tables env s).events ∧
    (initialize_tables env s).err =
      (match env.queryOutcome with
       | .ok _ => none
       | .error e => some e) := by
  refine ⟨?_, ?_, queryStarted_mem_events env s, run_err env s⟩
  · refine mem_events_of_mem_createEvents env s ?_
    refine List.mem_map.mpr ⟨t, ht, ?_⟩
    rw [hf]
  · intro u hu
    have hmem : (match env.createFails u with
        | some m => Event.createFailed u m
        | none => Event.created u) ∈ createEvents env :=
      List.mem_map.mpr ⟨u, hu, rfl⟩
    cases hc : env.createFails u
    · left
      rw [hc] at hmem
      exact mem_events_of_mem_createEvents env s hmem
    · right
      rw [hc] at hmem
      exact ⟨_, mem_events_of_mem_createEvents env s hmem⟩

/-- C7: a query error propagates uncaught, the run terminates with that
error, the destination tables are untouched, and no insert is attempted. -/
theorem query_error_propagates (env : Env) (s : WarehouseState) (e : String)
    (hq : env.queryOutcome = .error e) :
    (initialize_tables env s).err = some e ∧
    (initialize_tables env s).state = s ∧
    ∀ ev ∈ (initialize_tables env s).events, isInsertEvent ev = false := by
  unfold initialize_tables insertGraphStep
  rw [hq]
  refine ⟨rfl, rfl, ?_⟩
  intro ev hev
  rcases List.mem_append.mp hev with hc | hqs
  · exact isInsertEvent_eq_false_of_mem_createEvents hc
  · rw [List.mem_singleton.mp hqs]
    rfl

/-- C8: two runs over an unchanged source dataset (same query result) with
fully successful inserts append the same rows twice: each destination
table ends as its initial contents followed by two copies of the run's
rows, so every inserted row's multiplicity grows by two — no
deduplication, update, or delete happens on the write path. -/
theorem rerun_appends_duplicates (env1 env2 : Env) (s : WarehouseState)
    (qs : List QueryRow)
    (h1 : env1.queryOutcome = .ok qs) (h2 : env2.queryOutcome = .ok qs)
    (e1 : ∀ t, env1.insertErrors t = []) (e2 : ∀ t, env2.insertErrors t = []) :
    (initialize_tables env2 (initialize_tables env1 s).state).state.customer_graph =
      s.customer_graph ++ rows_to_insert qs ++ rows_to_insert qs ∧
    (initialize_tables env2 (initialize_tables env1 s).state).state.customer_graph_legacy =
      s.customer_graph_legacy ++ rows_to_insert qs ++ rows_to_insert qs ∧
    (initialize_tables env2 (initialize_tables env1 s).state).state.used_guids =
      s.used_guids ++ used_guids_rows qs ++ used_guids_rows qs ∧
    (∀ r : InsertRow,
      (initialize_tables env2 (initialize_tables env1 s).state).state.customer_graph.count r =
        s.customer_graph.count r + 2 * (rows_to_insert qs).count r) := by
  rw [run_state_ok env2 _ qs h2, run_state_ok env1 s qs h1,
    if_pos (e1 "customer_graph"), if_pos (e1 "customer_graph_legacy"),
    if_pos (e1 "used_guids"), if_pos (e2 "customer_graph"),
    if_pos (e2 "customer_graph_legacy"), if_pos (e2 "used_guids")]
  refine ⟨by simp, by simp, by simp, ?_⟩
  intro r
  simp [List.count_append]
  ring

/-- C10: the run submits the same serialized list to `customer_graph` and
to `customer_graph_legacy`, in that order, and submits to `used_guids`
exactly the element-wise GUID-and-date projection of that list — same
length, same order, same values. -/
theorem fanout_rows_identical (env : Env) (s : WarehouseState)
    (qs : List QueryRow) (hq : env.queryOutcome = .ok qs) :
    ((initialize_tables env s).events.filter isInsertEvent) =
      [Event.insertAttempt "customer_graph" (rows_to_insert qs),
       Event.insertAttempt "customer_graph_legacy" (rows_to_insert qs),
       Event.insertUsedAttempt ((rows_to_insert qs).map
         (fun r => { GUID := r.GUID, Date := r.Date }))] ∧
    used_guids_rows qs = (rows_to_insert qs).map
      (fun r => { GUID := r.GUID, Date := r.Date }) := by
  have hproj : used_guids_rows qs = (rows_to_insert qs).map
      (fun r => ({ GUID := r.GUID, Date := r.Date } : UsedRow)) := by
    rw [rows_to_insert, used_guids_rows, List.map_map]
    rfl
  exact ⟨by rw [run_insert_events env s qs hq, hproj], hproj⟩

/-! ## Witnesses -/

/-- Witness for C1 at a concrete source dataset. -/
theorem guid_appears_exactly_once_witness :
    (some "a" ∈ w1db.dimUser) ∧
    (∀ s ∈ w1db.sales, sqlEq (some "a") s = false) ∧
    (w1db.guidTable.filter
      (fun gr => sqlEq (some "a") gr.UserEmail) =
        [{ UserEmail := some "a", GUID := "G-7" }]) ∧
    (runQuery w1db sampleDate).count
      { GUID := "G-7", UserEmail := some "a", BillingID := none,
        ShippingID := none, Date := sampleDate } = 1 :=
  ⟨by decide, by decide, by decide,
    guid_appears_exactly_once w1db sampleDate "a"
      { UserEmail := some "a", GUID := "G-7" }
      (by decide) (by decide) (by decide)⟩

/-- Witness for C2 at a concrete source dataset. -/
theorem candidate_without_guid_dropped_witness :
    (some "b" ∈ user_emails w2db) ∧
    (∀ g ∈ w2db.guidTable, sqlEq (some "b") g.UserEmail = false) ∧
    ((∀ r ∈ runQuery w2db sampleDate, r.UserEmail ≠ some "b") ∧
     (∀ r ∈ rows_to_insert (runQuery w2db sampleDate),
        r.UserEmail ≠ some "b")) :=
  ⟨by decide, by decide,
    candidate_without_guid_dropped w2db sampleDate (some "b")
      (by decide) (by decide)⟩

/-- Witness for C3 at a concrete source dataset. -/
theorem email_with_sales_excluded_witness :
    (some "c" ∈ w3db.dimUser) ∧ (some "c" ∈ w3db.sales) ∧
    (∀ r ∈ runQuery w3db sampleDate, r.UserEmail ≠ some "c") :=
  ⟨by decide, by decide,
    email_with_sales_excluded w3db sampleDate "c" (by decide) (by decide)⟩

/-- Witness for C5 at a concrete environment whose `customer_graph`
insert fails. -/
theorem insert_error_does_not_block_later_inserts_witness :
    (w5env.queryOutcome = .ok [sampleRow]) ∧
    (w5env.insertErrors "customer_graph" ≠ []) ∧
    (Event.insertAttempt "customer_graph_legacy" (rows_to_insert [sampleRow]) ∈
      (initialize_tables w5env emptyWarehouse).events ∧
     Event.insertUsedAttempt (used_guids_rows [sampleRow]) ∈
      (initialize_tables w5env emptyWarehouse).events ∧
     Event.insertErrorsLogged "customer_graph"
        (w5env.insertErrors "customer_graph") ∈
      (initialize_tables w5env emptyWarehouse).events ∧
     (initialize_tables w5env emptyWarehouse).events.count
       (Event.insertAttempt "customer_graph" (rows_to_insert [sampleRow])) = 1 ∧
     (initialize_tables w5env emptyWarehouse).events.count
       (Event.insertAttempt "customer_graph_legacy"
         (rows_to_insert [sampleRow])) = 1 ∧
     (initialize_tables w5env emptyWarehouse).events.count
       (Event.insertUsedAttempt (used_guids_rows [sampleRow])) = 1 ∧
     (initialize_tables w5env emptyWarehouse).state.customer_graph =
       emptyWarehouse.customer_graph ∧
     (initialize_tables w5env emptyWarehouse).state.customer_graph_legacy =
       emptyWarehouse.customer_graph_legacy ++
         (if w5env.insertErrors "customer_graph_legacy" = [] then
           rows_to_insert [sampleRow] else []) ∧
     (initialize_tables w5env emptyWarehouse).state.used_guids =
       emptyWarehouse.used_guids ++
         (if w5env.insertErrors "used_guids" = [] then
           used_guids_rows [sampleRow] else [])) :=
  ⟨rfl, by decide,
    insert_error_does_not_block_later_inserts w5env emptyWarehouse [sampleRow]
      rfl (by decide)⟩

/-- Witness for C6 at a concrete environment whose `customer_graph`
creation fails. -/
theorem creation_failure_nonfatal_witness :
    ("customer_graph" ∈ tables) ∧
    (w6env.createFails "customer_graph" = some "exists") ∧
    (Event.createFailed "customer_graph" "exists" ∈
      (initialize_tables w6env emptyWarehouse).events ∧
     (∀ u ∈ tables,
        Event.created u ∈ (initialize_tables w6env emptyWarehouse).events ∨
        ∃ m, Event.createFailed u m ∈
          (initialize_tables w6env emptyWarehouse).events) ∧
     Event.queryStarted ∈ (initialize_tables w6env emptyWarehouse).events ∧
     (initialize_tables w6env emptyWarehouse).err =
       (match w6env.queryOutcome with
        | .ok _ => none
        | .error e => some e)) :=
  ⟨by decide, by decide,
    creation_failure_nonfatal w6env emptyWarehouse "customer_graph" "exists"
      (by decide) (by decide)⟩

/-- Witness for C7 at a concrete environment whose query raises. -/
theorem query_error_propagates_witness :
    (w7env.queryOutcome = .error "bad query") ∧
    ((initialize_tables w7env emptyWarehouse).err = some "bad query" ∧
     (initialize_tables w7env emptyWarehouse).state = emptyWarehouse ∧
     ∀ ev ∈ (initialize_tables w7env emptyWarehouse).events,
       isInsertEvent ev = false) :=
  ⟨rfl, query_error_propagates w7env emptyWarehouse "bad query" rfl⟩

/-- Witness for C8: the same successful environment run twice from empty
tables. -/
theorem rerun_appends_duplicates_witness :
    (w8env.queryOutcome = .ok [sampleRow]) ∧
    (∀ t, w8env.insertErrors t = []) ∧
    ((initialize_tables w8env (initialize_tables w8env emptyWarehouse).state).state.customer_graph =
      emptyWarehouse.customer_graph ++ rows_to_insert [sampleRow] ++
        rows_to_insert [sampleRow] ∧
     (initialize_tables w8env (initialize_tables w8env emptyWarehouse).state).state.customer_graph_legacy =
      emptyWarehouse.customer_graph_legacy ++ rows_to_insert [sampleRow] ++
        rows_to_insert [sampleRow] ∧
     (initialize_tables w8env (initialize_tables w8env emptyWarehouse).state).state.used_guids =
      emptyWarehouse.used_guids ++ used_guids_rows [sampleRow] ++
        used_guids_rows [sampleRow] ∧
     (∀ r : InsertRow,
       (initialize_tables w8env (initialize_tables w8env emptyWarehouse).state).state.customer_graph.count r =
         emptyWarehouse.customer_graph.count r +
           2 * (rows_to_insert [sampleRow]).count r)) :=
  ⟨rfl, fun _ => rfl,
    rerun_appends_duplicates w8env w8env emptyWarehouse [sampleRow]
      rfl rfl (fun _ => rfl) (fun _ => rfl)⟩

/-- Witness for C10 at a concrete environment. -/
theorem fanout_rows_identical_witness :
    (w10env.queryOutcome = .ok [sampleRow]) ∧
    (((initialize_tables w10env emptyWarehouse).events.filter isInsertEvent) =
      [Event.insertAttempt "customer_graph" (rows_to_insert [sampleRow]),
       Event.insertAttempt "customer_graph_legacy" (rows_to_insert [sampleRow]),
       Event.insertUsedAttempt ((rows_to_insert [sampleRow]).map
         (fun r => { GUID := r.GUID, Date := r.Date }))] ∧
     used_guids_rows [sampleRow] = (rows_to_insert [sampleRow]).map
       (fun r => { GUID := r.GUID, Date := r.Date })) :=
  ⟨rfl, fanout_rows_identical w10env emptyWarehouse [sampleRow] rfl⟩

end OtherEmails
